import Mathlib

/-!
Formal model of the ProjectConfig tool (waysys/ProjectConfig).

The Python sources are shallowly embedded:

* `projectconfig.py` — the `ProjectConfig` accessors over a parsed XML tree
  (modelled by the `Xml` inductive and, at the record level, by `Config`);
* `main.py` — the directory-validation pipeline (`validate_root`,
  `validate_workspace`, `validate_exec_dir`, `validate_test_suites`,
  `process`) over an explicit filesystem model (a list of existing
  directories), returning the ordered list of directory checks performed
  together with the result;
* `filecreator.py` — the renderers for `rungfit.bat` and the per-suite
  properties files;
* `generatepipeline.py` — the Jenkins pipeline renderer.

Strings are Lean `String`s (lists of characters); Python's
`str.replace` with one-character patterns is modelled by `replaceChar` /
`strReplace` and, for the slash-to-double-backslash replacement, by
`expandSlash`.  Exceptions are modelled by `Except Err`, where `Err`
distinguishes the tool's `ProjectConfigException` (called `ConfigError`
in the specification) from a Python `assert` failure.
-/

namespace ProjectConfig

/-- Runtime failures of the tool: `configError` models the
`ProjectConfigException` raised throughout the pipeline, `assertionError`
models a failing Python `assert` statement. -/
inductive Err where
  | configError (msg : String)
  | assertionError (msg : String)
  deriving DecidableEq, Repr

/-- Discriminator for the error kind: true exactly when the result is an
error of the `ProjectConfigException` (`ConfigError`) kind. -/
def resultIsConfigError {α : Type} : Except Err α → Bool
  | .error (.configError _) => true
  | _ => false

/-- The parsed configuration at the record level: one field per XML element
read by the `ProjectConfig` accessors.  `suiteDirectory` holds the text of
the optional `SuiteDirectory` element when present. -/
structure Config where
  root : String
  workspace : String
  project : String
  environment : String
  product : String
  server : String
  testSuites : List String
  suiteDirectory : Option String

/-- Model of `ProjectConfig.test_suite_directory`: the project name, unless the
optional `SuiteDirectory` element is present, in which case its text. -/
def test_suite_directory (cfg : Config) : String :=
  match cfg.suiteDirectory with
  | some s => s
  | none => cfg.project

-- ---------------------------------------------------------------------------
--  String helpers: Python str.replace with one-character pattern
-- ---------------------------------------------------------------------------

/-- Python `str.replace(a, b)` for one-character `a` and `b`, on the
character list. -/
def replaceChar (a b : Char) (l : List Char) : List Char :=
  l.map (fun c => if c = a then b else c)

/-- Python `str.replace(a, b)` for one-character `a` and `b`, on strings. -/
def strReplace (a b : Char) (s : String) : String :=
  ⟨replaceChar a b s.data⟩

theorem replaceChar_append (a b : Char) (l1 l2 : List Char) :
    replaceChar a b (l1 ++ l2) = replaceChar a b l1 ++ replaceChar a b l2 :=
  List.map_append _ l1 l2

theorem string_mk_append (l1 l2 : List Char) :
    (⟨l1 ++ l2⟩ : String) = (⟨l1⟩ : String) ++ (⟨l2⟩ : String) :=
  rfl

theorem strReplace_append (a b : Char) (s t : String) :
    strReplace a b (s ++ t) = strReplace a b s ++ strReplace a b t := by
  show (⟨replaceChar a b (s ++ t).data⟩ : String) = _
  rw [show (s ++ t).data = s.data ++ t.data from rfl, replaceChar_append]
  rfl

theorem not_mem_replaceChar (a b : Char) (h : b ≠ a) (l : List Char) :
    a ∉ replaceChar a b l := by
  intro hmem
  rcases List.mem_map.mp hmem with ⟨c, _, hc⟩
  by_cases hca : c = a
  · rw [if_pos hca] at hc
    exact h hc
  · rw [if_neg hca] at hc
    exact hca hc

-- ---------------------------------------------------------------------------
--  PropertyCreator.double_backslash  (filecreator.py, lines 328-337)
-- ---------------------------------------------------------------------------

/-- Python `str.replace("/", "\\\\")`: each forward slash becomes two
backslashes, every other character is kept. -/
def expandSlash : List Char → List Char
  | [] => []
  | c :: rest => (if c = '/' then ['\\', '\\'] else [c]) ++ expandSlash rest

/-- Model of `PropertyCreator.double_backslash`: first replace every backslash with a
forward slash, then replace every forward slash with two backslashes. -/
def double_backslash (path : String) : String :=
  ⟨expandSlash (strReplace '\\' '/' path).data⟩

/-- Checks that every maximal run of backslashes in the list has even
length, i.e. that every backslash is part of a doubled pair. -/
def checkDoubled : List Char → Bool
  | [] => true
  | c :: rest =>
    if c = '\\' then
      match rest with
      | [] => false
      | d :: rest2 => if d = '\\' then checkDoubled rest2 else false
    else checkDoubled rest

theorem expandSlash_cons_slash (rest : List Char) :
    expandSlash ('/' :: rest) = '\\' :: '\\' :: expandSlash rest := rfl

theorem expandSlash_cons_ne (c : Char) (rest : List Char) (h : ¬ c = '/') :
    expandSlash (c :: rest) = c :: expandSlash rest := by
  simp [expandSlash, h]

theorem checkDoubled_pair (rest : List Char) :
    checkDoubled ('\\' :: '\\' :: rest) = checkDoubled rest := rfl

theorem checkDoubled_cons_ne (c : Char) (rest : List Char) (hc : ¬ c = '\\') :
    checkDoubled (c :: rest) = checkDoubled rest := by
  cases rest with
  | nil => simp [checkDoubled, hc]
  | cons d r2 => simp [checkDoubled, hc]

theorem expandSlash_sound (l : List Char) (h : '\\' ∉ l) :
    checkDoubled (expandSlash l) = true ∧ '/' ∉ expandSlash l := by
  induction l with
  | nil => exact ⟨rfl, by simp [expandSlash]⟩
  | cons c rest ih =>
    have hc : c ≠ '\\' := fun hcc => h (hcc ▸ List.mem_cons_self c rest)
    have hrest : '\\' ∉ rest := fun hm => h (List.mem_cons_of_mem c hm)
    obtain ⟨ih1, ih2⟩ := ih hrest
    by_cases hslash : c = '/'
    · subst hslash
      rw [expandSlash_cons_slash]
      refine ⟨?_, ?_⟩
      · rw [checkDoubled_pair]
        exact ih1
      · intro hm
        rcases List.mem_cons.mp hm with h1 | hm2
        · exact absurd h1.symm (by decide)
        · rcases List.mem_cons.mp hm2 with h2 | hm3
          · exact absurd h2.symm (by decide)
          · exact ih2 hm3
    · rw [expandSlash_cons_ne c _ hslash]
      refine ⟨?_, ?_⟩
      · rw [checkDoubled_cons_ne c _ hc]
        exact ih1
      · intro hm
        rcases List.mem_cons.mp hm with h1 | hm2
        · exact hslash h1.symm
        · exact ih2 hm2

/-- C5: `double_backslash` is a total function on strings whose output
contains no forward slash, and in whose output every backslash occurs as
part of a doubled pair (every maximal backslash run has even length). -/
theorem claim05_double_backslash_total (path : String) :
    checkDoubled (double_backslash path).data = true ∧
      '/' ∉ (double_backslash path).data := by
  have hno : '\\' ∉ (strReplace '\\' '/' path).data :=
    not_mem_replaceChar '\\' '/' (by decide) path.data
  exact expandSlash_sound _ hno

-- ---------------------------------------------------------------------------
--  main.py: directory validation over an explicit filesystem model
-- ---------------------------------------------------------------------------

/-- The filesystem model: `is_dir fs p` holds when `p` is in the list `fs`
of existing directories (`Path(p).is_dir()` in the source). -/
def is_dir (fs : List String) (dir_name : String) : Bool :=
  fs.contains dir_name

/-- Model of `main.validate_root`: check that the root directory exists.  Returns the
list of directories checked together with the result. -/
def validate_root (fs : List String) (root_dir : String) :
    List String × Except Err Unit :=
  if is_dir fs root_dir then ([root_dir], .ok ())
  else ([root_dir], .error (.configError ("Root directory does not exist - " ++ root_dir)))

/-- Model of `main.validate_workspace`: check workspace and workspace/environment
(fatal when missing), then create workspace/environment/project when absent.
Returns (directories checked, updated filesystem, result). -/
def validate_workspace (fs : List String) (workspace environment project : String) :
    List String × List String × Except Err Unit :=
  if is_dir fs workspace then
    let environ_path := workspace ++ "/" ++ environment
    if is_dir fs environ_path then
      let project_path := environ_path ++ "/" ++ project
      if is_dir fs project_path then
        ([workspace, environ_path, project_path], fs, .ok ())
      else
        ([workspace, environ_path, project_path], project_path :: fs, .ok ())
    else
      ([workspace, environ_path], fs,
        .error (.configError ("Environment directory in workspace does not exist - " ++ environ_path)))
  else
    ([workspace], fs,
      .error (.configError ("Workspace directory does not exist - " ++ workspace)))

/-- Model of `main.validate_exec_dir`: check root, root/environment and
root/environment/product (fatal when missing), then create the project
directory when absent.  Returns (directories checked, updated filesystem,
result). -/
def validate_exec_dir (fs : List String) (root environment product project : String) :
    List String × List String × Except Err Unit :=
  if is_dir fs root then
    let environ_path := root ++ "/" ++ environment
    if is_dir fs environ_path then
      let product_path := environ_path ++ "/" ++ product
      if is_dir fs product_path then
        let project_path := product_path ++ "/" ++ project
        if is_dir fs project_path then
          ([root, environ_path, product_path, project_path], fs, .ok ())
        else
          ([root, environ_path, product_path, project_path], project_path :: fs, .ok ())
      else
        ([root, environ_path, product_path], fs,
          .error (.configError ("Product directory does not exist - " ++ product_path)))
    else
      ([root, environ_path], fs,
        .error (.configError ("Environment directory does not exist - " ++ environ_path)))
  else
    ([root], fs,
      .error (.configError ("Root directory does not exist - " ++ root)))

/-- The suite loop of `main.validate_test_suites`: check each suite
directory in declared order, stopping with a `ConfigError` naming the first
missing one. -/
def check_suites (fs : List String) (dir : String) : List String → List String × Except Err Unit
  | [] => ([], .ok ())
  | s :: rest =>
    let suite_dir := dir ++ "/" ++ s
    if is_dir fs suite_dir then
      let r := check_suites fs dir rest
      (suite_dir :: r.1, r.2)
    else
      ([suite_dir], .error (.configError ("Suite directory does not exist - " ++ suite_dir)))

/-- Model of `main.validate_test_suites`: check root/TESTSUITES, then the product
directory, then the project directory under it (each fatal when missing,
with the source's message — including its doubled space), then every suite
directory in declared order. -/
def validate_test_suites (fs : List String) (root product project : String)
    (test_suites : List String) : List String × Except Err Unit :=
  let test_suite_root := root ++ "/TESTSUITES"
  if is_dir fs test_suite_root then
    let test_suite_product_dir := test_suite_root ++ "/" ++ product
    if is_dir fs test_suite_product_dir then
      let test_suite_project_dir := test_suite_product_dir ++ "/" ++ project
      if is_dir fs test_suite_project_dir then
        let r := check_suites fs test_suite_project_dir test_suites
        ([test_suite_root, test_suite_product_dir, test_suite_project_dir] ++ r.1, r.2)
      else
        ([test_suite_root, test_suite_product_dir, test_suite_project_dir],
          .error (.configError ("Test suite root  directory does not exist - " ++ test_suite_project_dir)))
    else
      ([test_suite_root, test_suite_product_dir],
        .error (.configError ("Test suite root  directory does not exist - " ++ test_suite_product_dir)))
  else
    ([test_suite_root],
      .error (.configError ("Test suite root  directory does not exist - " ++ test_suite_root)))

/-- Model of `main.process`: the validation sequence of the orchestrator, with the
lazy accessor checks of `ProjectConfig` inlined at their first-access
points: `product` is first read while building the arguments of
`validate_exec_dir`, `test_suites` while building the arguments of
`validate_test_suites`.  Note that `validate_test_suites` receives the
`project` field.  Returns the ordered list of directories whose existence
was checked by the validators, and the result. -/
def process (fs : List String) (cfg : Config) : List String × Except Err Unit :=
  let r1 := validate_root fs cfg.root
  match r1.2 with
  | .error e => (r1.1, .error e)
  | .ok _ =>
    let r2 := validate_workspace fs cfg.workspace cfg.environment cfg.project
    match r2.2.2 with
    | .error e => (r1.1 ++ r2.1, .error e)
    | .ok _ =>
      if cfg.product ∈ (["PC", "BC", "CC"] : List String) then
        let r3 := validate_exec_dir r2.2.1 cfg.root cfg.environment cfg.product cfg.project
        match r3.2.2 with
        | .error e => (r1.1 ++ r2.1 ++ r3.1, .error e)
        | .ok _ =>
          if cfg.testSuites = [] then
            (r1.1 ++ r2.1 ++ r3.1, .error (.configError "No test suites were found"))
          else
            let r4 := validate_test_suites r3.2.1 cfg.root cfg.product cfg.project cfg.testSuites
            (r1.1 ++ r2.1 ++ r3.1 ++ r4.1, r4.2)
      else
        (r1.1 ++ r2.1, .error (.configError ("Invalid product abbreviation - " ++ cfg.product)))

theorem check_suites_spec (fs : List String) (dir : String) (suites : List String) :
    (check_suites fs dir suites).2 =
      match suites.find? (fun s => ! is_dir fs (dir ++ "/" ++ s)) with
      | none => Except.ok ()
      | some s =>
          Except.error (.configError ("Suite directory does not exist - " ++ (dir ++ "/" ++ s))) := by
  induction suites with
  | nil => rfl
  | cons s rest ih =>
    by_cases hd : is_dir fs (dir ++ "/" ++ s) = true
    · rw [List.find?_cons_of_neg _ (by simp [hd])]
      simp only [check_suites, hd, if_true]
      exact ih
    · rw [List.find?_cons_of_pos _ (by simp [Bool.not_eq_true] at hd ⊢; exact hd)]
      simp [check_suites, hd]

-- ---------------------------------------------------------------------------
--  Claims C1 and C2: the validation sequence
-- ---------------------------------------------------------------------------

/-- A configuration whose optional SuiteDirectory element ("SD") differs
from the project name ("P1"). -/
def cfgC1 : Config :=
  { root := "C:/exec", workspace := "C:/ws", project := "P1", environment := "QA",
    product := "BC", server := "host1", testSuites := ["S1"], suiteDirectory := some "SD" }

/-- A filesystem containing every directory the configuration above needs
when the suite tree is looked up under the SuiteDirectory name "SD" — but
no `TESTSUITES/BC/P1`. -/
def fsC1 : List String :=
  ["C:/exec", "C:/ws", "C:/ws/QA", "C:/ws/QA/P1",
   "C:/exec/QA", "C:/exec/QA/BC", "C:/exec/QA/BC/P1",
   "C:/exec/TESTSUITES", "C:/exec/TESTSUITES/BC",
   "C:/exec/TESTSUITES/BC/SD", "C:/exec/TESTSUITES/BC/SD/S1"]

/-- C1 counterexample: with SuiteDirectory = "SD" and project = "P1", the
suite-tree validation claimed (under `root/TESTSUITES/<product>/SD`) would
succeed on this filesystem, but the pipeline fails: it validates
`root/TESTSUITES/<product>/P1` — the project name, not the suite
directory. -/
theorem claim01_counterexample :
    test_suite_directory cfgC1 = "SD" ∧
    cfgC1.project = "P1" ∧
    (validate_test_suites fsC1 cfgC1.root cfgC1.product (test_suite_directory cfgC1)
        cfgC1.testSuites).2 = .ok () ∧
    (process fsC1 cfgC1).2 =
      .error (.configError "Test suite root  directory does not exist - C:/exec/TESTSUITES/BC/P1") :=
  ⟨rfl, rfl, rfl, rfl⟩

/-- C1 amended: directory validation of the test-suite source tree checks
`root/TESTSUITES/<product>/<project>` — the project name; the optional
SuiteDirectory element is not consulted — and, for every suite name in
testSuites in declared order, `root/TESTSUITES/<product>/<project>/<suite>`,
raising a ConfigError naming the first missing suite directory. -/
theorem claim01_amended (fs : List String) (cfg : Config)
    (hprod : cfg.product ∈ (["PC", "BC", "CC"] : List String))
    (hne : ¬ cfg.testSuites = [])
    (hroot : is_dir fs cfg.root = true)
    (hws : is_dir fs cfg.workspace = true)
    (hwse : is_dir fs (cfg.workspace ++ "/" ++ cfg.environment) = true)
    (hwsp : is_dir fs ((cfg.workspace ++ "/" ++ cfg.environment) ++ "/" ++ cfg.project) = true)
    (hre : is_dir fs (cfg.root ++ "/" ++ cfg.environment) = true)
    (hrp : is_dir fs ((cfg.root ++ "/" ++ cfg.environment) ++ "/" ++ cfg.product) = true)
    (hrpp : is_dir fs (((cfg.root ++ "/" ++ cfg.environment) ++ "/" ++ cfg.product) ++ "/" ++ cfg.project) = true)
    (hts : is_dir fs (cfg.root ++ "/TESTSUITES") = true)
    (htsp : is_dir fs ((cfg.root ++ "/TESTSUITES") ++ "/" ++ cfg.product) = true)
    (htsj : is_dir fs (((cfg.root ++ "/TESTSUITES") ++ "/" ++ cfg.product) ++ "/" ++ cfg.project) = true) :
    (process fs cfg).2 =
      match cfg.testSuites.find?
          (fun s => ! is_dir fs
            ((((cfg.root ++ "/TESTSUITES") ++ "/" ++ cfg.product) ++ "/" ++ cfg.project) ++ "/" ++ s)) with
      | none => Except.ok ()
      | some s => Except.error (.configError ("Suite directory does not exist - " ++
          ((((cfg.root ++ "/TESTSUITES") ++ "/" ++ cfg.product) ++ "/" ++ cfg.project) ++ "/" ++ s))) := by
  rw [← check_suites_spec fs (((cfg.root ++ "/TESTSUITES") ++ "/" ++ cfg.product) ++ "/" ++ cfg.project) cfg.testSuites]
  simp only [process, validate_root, validate_workspace, validate_exec_dir, validate_test_suites,
    hroot, hws, hwse, hwsp, hre, hrp, hrpp, hts, htsp, htsj, hprod, hne,
    if_true, if_false, ite_true, ite_false, if_pos, if_neg]

/-- A configuration with no SuiteDirectory element and two suites. -/
def cfgC1w : Config :=
  { root := "C:/exec", workspace := "C:/ws", project := "P1", environment := "QA",
    product := "BC", server := "host1", testSuites := ["S1", "S2"], suiteDirectory := none }

/-- A filesystem with every required directory except the suite directory
for "S2". -/
def fsC1w : List String :=
  ["C:/exec", "C:/ws", "C:/ws/QA", "C:/ws/QA/P1",
   "C:/exec/QA", "C:/exec/QA/BC", "C:/exec/QA/BC/P1",
   "C:/exec/TESTSUITES", "C:/exec/TESTSUITES/BC",
   "C:/exec/TESTSUITES/BC/P1", "C:/exec/TESTSUITES/BC/P1/S1"]

/-- Witness for `claim01_amended` at a concrete configuration: the second
suite directory is missing and is the one named in the error. -/
theorem claim01_witness :
    (process fsC1w cfgC1w).2 =
      .error (.configError "Suite directory does not exist - C:/exec/TESTSUITES/BC/P1/S2") := by
  have h := claim01_amended fsC1w cfgC1w (by decide) (by decide)
    rfl rfl rfl rfl rfl rfl rfl rfl rfl rfl
  rw [h]
  rfl

/-- A configuration whose Product element text is "XX", outside the fixed
product-code set. -/
def cfgC2 : Config :=
  { root := "C:/exec", workspace := "C:/ws", project := "P1", environment := "QA",
    product := "XX", server := "host1", testSuites := ["S1"], suiteDirectory := none }

/-- A filesystem containing the root and workspace directories. -/
def fsC2 : List String :=
  ["C:/exec", "C:/ws", "C:/ws/QA", "C:/ws/QA/P1"]

/-- C2 counterexample: with product "XX" the run does terminate with the
invalid-product ConfigError, but only after directory-existence validation
has been performed — the validators have already checked the root
directory, the workspace directory, and the workspace environment and
project directories. -/
theorem claim02_counterexample :
    (process fsC2 cfgC2).2 = .error (.configError "Invalid product abbreviation - XX") ∧
    (process fsC2 cfgC2).1 = ["C:/exec", "C:/ws", "C:/ws/QA", "C:/ws/QA/P1"] ∧
    ¬ (process fsC2 cfgC2).1 = [] :=
  ⟨rfl, rfl, by decide⟩

/-- C2 amended: with an invalid product code, the run terminates with the
invalid-product ConfigError raised when `product` is first accessed — after
root and workspace directory validation (whose checks do occur) but before
any exec-directory or test-suite directory validation. -/
theorem claim02_amended (fs : List String) (cfg : Config)
    (hprod : cfg.product ∉ (["PC", "BC", "CC"] : List String))
    (hroot : is_dir fs cfg.root = true)
    (hws : is_dir fs cfg.workspace = true)
    (hwse : is_dir fs (cfg.workspace ++ "/" ++ cfg.environment) = true) :
    process fs cfg =
      ([cfg.root, cfg.workspace, cfg.workspace ++ "/" ++ cfg.environment,
        (cfg.workspace ++ "/" ++ cfg.environment) ++ "/" ++ cfg.project],
       .error (.configError ("Invalid product abbreviation - " ++ cfg.product))) := by
  by_cases hp : is_dir fs ((cfg.workspace ++ "/" ++ cfg.environment) ++ "/" ++ cfg.project) = true
  · simp [process, validate_root, validate_workspace, hroot, hws, hwse, hp, hprod]
  · simp [process, validate_root, validate_workspace, hroot, hws, hwse, hp, hprod]

/-- Witness for `claim02_amended` at the concrete configuration with
product "XX". -/
theorem claim02_witness :
    process fsC2 cfgC2 =
      (["C:/exec", "C:/ws", "C:/ws/QA", "C:/ws/QA/P1"],
       .error (.configError "Invalid product abbreviation - XX")) := by
  have h := claim02_amended fsC2 cfgC2 (by decide) rfl rfl rfl
  exact h

-- ---------------------------------------------------------------------------
--  filecreator.py: drive, property-file paths, URL, rungfit.bat content
-- ---------------------------------------------------------------------------

/-- The port table of filecreator.py, keyed by lower-case product code. -/
def ports : List (String × String) :=
  [("bc", "8580"), ("cc", "8080"), ("pc", "8180")]

/-- Dictionary lookup in the port table. -/
def portsLookup (p : String) : Option String :=
  (ports.find? (fun e => e.1 == p)).map (fun e => e.2)

/-- Model of `FileCreator.drive`: the configured root with every forward slash
replaced by a backslash. -/
def drive (cfg : Config) : String :=
  strReplace '/' '\\' cfg.root

/-- Python `str.lower()`: every character lower-cased. -/
def lower (s : String) : String :=
  ⟨s.data.map Char.toLower⟩

/-- Model of `FileCreator.product`: the product abbreviation in lower case. -/
def fc_product (cfg : Config) : String :=
  lower cfg.product

/-- Model of `FileCreator.generate_property_filename`: the per-suite relative
properties path referenced by the bat file, with forward slashes replaced
by backslashes at the end. -/
def fc_generate_property_filename (cfg : Config) (test_suite : String) : String :=
  strReplace '/' '\\'
    ("\\" ++ (cfg.environment ++ "\\") ++ (cfg.product ++ "\\") ++ (cfg.project ++ "\\") ++
      (test_suite ++ ".properties"))

/-- Model of `PropertyCreator.generate_property_filename`: the absolute path the
properties file is written to, with forward slashes replaced by
backslashes at the end. -/
def pc_generate_property_filename (cfg : Config) (test_suite : String) : String :=
  strReplace '/' '\\'
    ((cfg.root ++ "\\") ++ (cfg.environment ++ "\\") ++ (cfg.product ++ "\\") ++
      (cfg.project ++ "\\") ++ (test_suite ++ ".properties"))

/-- Model of `PropertyCreator.generate_url`: looks the lower-cased product up in the
port table; the `assert product in ports` statement is a Python assert, so
a missing key fails as an assertion error, not a `ProjectConfigException`. -/
def pc_generate_url (cfg : Config) : Except Err String :=
  let product := fc_product cfg
  match portsLookup product with
  | none => .error (.assertionError ("Product abbreviation is inccorrect - " ++ product))
  | some port => .ok ("http://" ++ cfg.server ++ ":" ++ port ++ "/" ++ product)

theorem string_append_empty (s : String) : s ++ "" = s := by
  show (⟨s.data ++ []⟩ : String) = s
  rw [List.append_nil]

theorem string_append_assoc (a b c : String) : (a ++ b) ++ c = a ++ (b ++ c) := by
  show (⟨(a.data ++ b.data) ++ c.data⟩ : String) = ⟨a.data ++ (b.data ++ c.data)⟩
  rw [List.append_assoc]

/-- C4: for every configuration and suite, the path referenced by the
launcher invocation line — the drive (base path) concatenated with the
per-suite relative path — is string-equal to the path the properties file
is written to. -/
theorem claim04_paths_agree (cfg : Config) (test_suite : String) :
    drive cfg ++ fc_generate_property_filename cfg test_suite =
      pc_generate_property_filename cfg test_suite := by
  unfold drive fc_generate_property_filename pc_generate_property_filename
  rw [← strReplace_append]
  congr 1
  simp only [← string_append_assoc]

/-- A configuration whose product text "XX" lower-cases to "xx", which is
not a key of the port table. -/
def cfgC3 : Config :=
  { root := "C:/exec", workspace := "C:/ws", project := "P1", environment := "QA",
    product := "XX", server := "host1", testSuites := ["S1"], suiteDirectory := none }

/-- C3 counterexample: with product "XX" (not in the port table after
lower-casing), `generate_url` fails with an assertion error, not with the
ConfigError kind the claim asserts. -/
theorem claim03_counterexample :
    pc_generate_url cfgC3 = .error (.assertionError "Product abbreviation is inccorrect - xx") ∧
    resultIsConfigError (pc_generate_url cfgC3) = false :=
  ⟨rfl, rfl⟩

/-- C3 amended: when the lower-cased product code is not a key of the port
table, `generate_url` fails with a Python assertion error (AssertionError),
which is not the ConfigError kind used by the rest of the pipeline. -/
theorem claim03_amended (cfg : Config)
    (h : portsLookup (fc_product cfg) = none) :
    pc_generate_url cfg =
      .error (.assertionError ("Product abbreviation is inccorrect - " ++ fc_product cfg)) ∧
    resultIsConfigError (pc_generate_url cfg) = false := by
  constructor
  · simp [pc_generate_url, h]
  · simp [pc_generate_url, h, resultIsConfigError]

/-- Witness for `claim03_amended` at the concrete configuration with
product "XX". -/
theorem claim03_witness :
    portsLookup (fc_product cfgC3) = none ∧
    pc_generate_url cfgC3 = .error (.assertionError "Product abbreviation is inccorrect - xx") ∧
    resultIsConfigError (pc_generate_url cfgC3) = false :=
  ⟨rfl, (claim03_amended cfgC3 rfl).1, (claim03_amended cfgC3 rfl).2⟩

/-- Model of `BatFileCreator.generate_java_line`: the `java_templte` string with the
property-file placeholder substituted. -/
def generate_java_line (cfg : Config) (test_suite : String) : String :=
  "\njava  -ea -jar %DRIVE%\\EXEC\\runGFIT.jar -prop %DRIVE%" ++
    fc_generate_property_filename cfg test_suite ++ "\n"

/-- Model of `BatFileCreator.generate_content`: accumulate one java line plus a
newline per test suite, then substitute the drive and the accumulated lines
into the rungfit template. -/
def bat_generate_content (cfg : Config) : String :=
  let java_lines := cfg.testSuites.foldl (fun acc s => acc ++ (generate_java_line cfg s ++ "\n")) ""
  "\nSET DRIVE=" ++ drive cfg ++ "\n" ++ java_lines ++ "\n"

/-- The per-suite properties path as worded by the specification:
`\<environment>\<product>\<project>\<suite>.properties`, each component
with its separators normalized to backslash. -/
def spec_prop_path (cfg : Config) (s : String) : String :=
  "\\" ++ strReplace '/' '\\' cfg.environment ++ ("\\" ++ strReplace '/' '\\' cfg.product ++
    ("\\" ++ strReplace '/' '\\' cfg.project ++ ("\\" ++ strReplace '/' '\\' s ++ ".properties")))

/-- One launcher invocation line per suite, as worded by the specification,
referencing the normalized properties path and the fixed runner-jar path. -/
def spec_invocation_line (cfg : Config) (s : String) : String :=
  "\njava  -ea -jar %DRIVE%\\EXEC\\runGFIT.jar -prop %DRIVE%" ++ spec_prop_path cfg s ++ "\n\n"

/-- Concatenation of a list of strings in order. -/
def strConcat : List String → String
  | [] => ""
  | s :: rest => s ++ strConcat rest

/-- The header of the launcher script, declaring the base drive path. -/
def spec_bat_header (cfg : Config) : String :=
  "\nSET DRIVE=" ++ drive cfg ++ "\n"

/-- The launcher script as worded by the claim: the header followed by one
invocation line per test suite, in testSuites order (plus the template's
final newline). -/
def spec_bat_content (cfg : Config) : String :=
  spec_bat_header cfg ++ strConcat (cfg.testSuites.map (spec_invocation_line cfg)) ++ "\n"

theorem foldl_append_strConcat (f : String → String) (l : List String) (acc : String) :
    l.foldl (fun a s => a ++ f s) acc = acc ++ strConcat (l.map f) := by
  induction l generalizing acc with
  | nil => simp [strConcat, string_append_empty]
  | cons s rest ih =>
    simp only [List.foldl_cons, List.map_cons, strConcat]
    rw [ih, string_append_assoc]

theorem strReplace_lit_backslash : strReplace '/' '\\' "\\" = "\\" := rfl

theorem strReplace_lit_properties : strReplace '/' '\\' ".properties" = ".properties" := rfl

/-- The code's relative properties path coincides with the claim's
component-wise normalized form. -/
theorem fc_prop_path_spec (cfg : Config) (s : String) :
    fc_generate_property_filename cfg s = spec_prop_path cfg s := by
  unfold fc_generate_property_filename spec_prop_path
  simp only [strReplace_append, strReplace_lit_backslash, strReplace_lit_properties,
    string_append_assoc]

/-- C8: the generated launcher script equals the header declaring the base
drive path followed by exactly one invocation line per test suite, in
testSuites order, each referencing the backslash-normalized
`\<environment>\<product>\<project>\<suite>.properties` path. -/
theorem string_nl_nl : ("\n" ++ "\n" : String) = "\n\n" := rfl

theorem claim08_bat_content (cfg : Config) :
    bat_generate_content cfg = spec_bat_content cfg := by
  unfold bat_generate_content spec_bat_content spec_bat_header
  rw [foldl_append_strConcat]
  have hline : ∀ s, generate_java_line cfg s ++ "\n" = spec_invocation_line cfg s := by
    intro s
    unfold generate_java_line spec_invocation_line
    rw [fc_prop_path_spec]
    simp only [string_append_assoc, string_nl_nl]
  have hfun : (fun s => generate_java_line cfg s ++ "\n") = spec_invocation_line cfg :=
    funext hline
  rw [hfun]
  simp only [string_append_assoc]
  rfl

-- ---------------------------------------------------------------------------
--  generatepipeline.py: the Jenkins pipeline renderer
-- ---------------------------------------------------------------------------

/-- The pipeline template of generatepipeline.py with its three
placeholders substituted. -/
def pipeline_substituted (workspace project_name run_file : String) : String :=
  "\npipeline \x7b\n    agent \x7b\n        node \x7b\n            label \"master\"\n            customWorkspace \"" ++
    workspace ++
    "\"\n        \x7d\n    \x7d\n    stages \x7b\n        stage(\x27" ++
    project_name ++
    "\x27) \x7b\n            steps \x7b\n                bat \"" ++
    run_file ++
    "\"\n            \x7d\n        \x7d\n    \x7d\n    post \x7b\n        always \x7b\n            junit \x27*.xml\x27\n        \x7d\n    \x7d\n\x7d\n"

/-- Model of `PipelineGenerator.output_pipeline`: the substituted template with
every backslash replaced by a forward slash. -/
def output_pipeline (workspace project_name run_file : String) : String :=
  strReplace '\\' '/' (pipeline_substituted workspace project_name run_file)

/-- C9: for every workspace path, project name and run-file path, the
rendered pipeline descriptor contains no backslash character. -/
theorem claim09_no_backslash (workspace project_name run_file : String) :
    '\\' ∉ (output_pipeline workspace project_name run_file).data :=
  not_mem_replaceChar '\\' '/' (by decide) _

-- ---------------------------------------------------------------------------
--  projectconfig.py: XML model, test_suites and product accessors
-- ---------------------------------------------------------------------------

/-- XML elements as exposed by ElementTree: a tag, optional text content,
and the list of child elements in document order. -/
inductive Xml where
  | elem (tag : String) (text : Option String) (children : List Xml)

/-- The tag of an element. -/
def Xml.tag : Xml → String
  | .elem t _ _ => t

/-- The text content of an element (None when absent). -/
def Xml.text : Xml → Option String
  | .elem _ tx _ => tx

/-- The child elements of an element, in document order. -/
def Xml.children : Xml → List Xml
  | .elem _ _ c => c

/-- ElementTree `find`: the first direct child with the given tag. -/
def xmlFind (parent : Xml) (tag : String) : Option Xml :=
  parent.children.find? (fun c => c.tag == tag)

/-- ElementTree `findall`: all direct children with the given tag, in
document order. -/
def xmlFindall (parent : Xml) (tag : String) : List Xml :=
  parent.children.filter (fun c => c.tag == tag)

/-- Model of `ProjectConfig.test_suites` at first access (memo still empty): fetch
the TestSuites container, collect the text of its TestSuite children in
order, and fail with the ConfigError "No test suites were found" when the
collected list is empty. -/
def test_suites (configuration : Xml) : Except Err (List (Option String)) :=
  match xmlFind configuration "TestSuites" with
  | none => .error (.configError
      ("fetch_element: Element TestSuites was not found in element " ++ configuration.tag))
  | some container =>
    let suites := (xmlFindall container "TestSuite").map Xml.text
    if suites.length = 0 then .error (.configError "No test suites were found")
    else .ok suites

/-- C6: when the TestSuites container is found, the first access to
testSuites returns the texts of its TestSuite children as an ordered
sequence of the same length (order preserved by construction); when zero
such children exist it fails with a ConfigError. -/
theorem claim06_test_suites (configuration container : Xml)
    (h : xmlFind configuration "TestSuites" = some container) :
    (xmlFindall container "TestSuite" = [] →
      test_suites configuration = .error (.configError "No test suites were found")) ∧
    (¬ xmlFindall container "TestSuite" = [] →
      test_suites configuration = .ok ((xmlFindall container "TestSuite").map Xml.text) ∧
      ((xmlFindall container "TestSuite").map Xml.text).length =
        (xmlFindall container "TestSuite").length) := by
  refine ⟨fun hz => ?_, fun hnz => ?_⟩
  · simp [test_suites, h, hz]
  · have h0 : ¬ ((xmlFindall container "TestSuite").map Xml.text).length = 0 := by
      rw [List.length_map, List.length_eq_zero]
      exact hnz
    exact ⟨by simp [test_suites, h, h0, hnz], List.length_map _ _⟩

/-- A two-suite TestSuites container. -/
def xmlSampleSuites : Xml :=
  .elem "TestSuites" none
    [.elem "TestSuite" (some "S1") [], .elem "TestSuite" (some "S2") []]

/-- A configuration document holding the container above. -/
def xmlSample : Xml :=
  .elem "TestConfiguration" none [xmlSampleSuites]

/-- Witness for `claim06_test_suites` at a concrete two-suite document. -/
theorem claim06_witness :
    test_suites xmlSample = .ok [some "S1", some "S2"] ∧
    ((xmlFindall xmlSampleSuites "TestSuite").map Xml.text).length =
      (xmlFindall xmlSampleSuites "TestSuite").length := by
  have h := (claim06_test_suites xmlSample xmlSampleSuites rfl).2
    (by simp [xmlFindall, xmlSampleSuites, Xml.children, Xml.tag])
  exact ⟨h.1, h.2⟩

/-- Model of `ProjectConfig.product` with its memo field explicit: the fetched text
is written to the memo before the membership check, and a non-empty memo is
returned without any check. -/
def productAccess (memo : Option String) (text : String) :
    Option String × Except Err String :=
  match memo with
  | some p => (some p, .ok p)
  | none =>
    if text ∈ (["PC", "BC", "CC"] : List String) then (some text, .ok text)
    else (some text, .error (.configError ("Invalid product abbreviation - " ++ text)))

/-- C10: with an invalid Product text, only the first access raises — the
invalid value is cached in the memo before the membership check, and a
subsequent access on the memoized state returns the invalid product string
without raising, so the product-code-set invariant fails across accesses. -/
theorem claim10_memoized_invalid_product (text : String)
    (h : text ∉ (["PC", "BC", "CC"] : List String)) :
    productAccess none text =
      (some text, .error (.configError ("Invalid product abbreviation - " ++ text))) ∧
    productAccess (some text) text = (some text, .ok text) := by
  refine ⟨?_, rfl⟩
  simp [productAccess, h]

/-- Witness for `claim10_memoized_invalid_product` at product text "XX". -/
theorem claim10_witness :
    ¬ ("XX" ∈ (["PC", "BC", "CC"] : List String)) ∧
    productAccess none "XX" =
      (some "XX", .error (.configError "Invalid product abbreviation - XX")) ∧
    productAccess (some "XX") "XX" = (some "XX", .ok "XX") :=
  ⟨by decide, (claim10_memoized_invalid_product "XX" (by decide)).1,
    (claim10_memoized_invalid_product "XX" (by decide)).2⟩

-- ---------------------------------------------------------------------------
--  Claim C7: properties rendering and key=value parse-back
-- ---------------------------------------------------------------------------

/-- Model of `PropertyCreator.generate_test_suite_path`: the suite source path with
all separators doubled. -/
def generate_test_suite_path (cfg : Config) (test_suite : String) : String :=
  double_backslash
    (cfg.root ++ "/" ++ "TESTSUITES/" ++ cfg.product ++ ("/" ++ cfg.project) ++ ("/" ++ test_suite))

/-- Model of `PropertyCreator.generate_reports_path`: the reports path with all
separators doubled. -/
def generate_reports_path (cfg : Config) (test_suite : String) : String :=
  double_backslash
    (cfg.workspace ++ "/" ++ cfg.environment ++ "/" ++ (cfg.project ++ "/" ++ test_suite))

/-- The properties template with its three placeholders substituted. -/
def renderProperties (url testsuite reports : String) : String :=
  "\nurl=" ++ url ++ "\nusername=su\npassword=gw\ntestsuite=" ++ testsuite ++
    "\nreports=" ++ reports ++ "\ntimeout=960000\n"

/-- Model of `PropertyCreator.generate_content`: the URL (which may fail), the suite
path and the reports path substituted into the properties template. -/
def prop_generate_content (cfg : Config) (test_suite : String) : Except Err String :=
  match pc_generate_url cfg with
  | .error e => .error e
  | .ok url =>
    .ok (renderProperties url (generate_test_suite_path cfg test_suite)
          (generate_reports_path cfg test_suite))

/-- Split a character list at newline characters. -/
def splitNl : List Char → List (List Char)
  | [] => [[]]
  | c :: rest =>
    if c = '\n' then [] :: splitNl rest
    else
      match splitNl rest with
      | [] => [[c]]
      | l :: ls => (c :: l) :: ls

/-- Split a line at its first equals sign; none when the line has no
equals sign. -/
def splitFirstEq : List Char → Option (List Char × List Char)
  | [] => none
  | c :: rest =>
    if c = '=' then some ([], rest)
    else (splitFirstEq rest).map (fun p => (c :: p.1, p.2))

/-- Parse one line as a key=value pair. -/
def parseLine (l : List Char) : Option (String × String) :=
  (splitFirstEq l).map (fun p => (⟨p.1⟩, ⟨p.2⟩))

/-- Parse a properties document back into its key=value pairs: split into
lines and keep the lines containing an equals sign. -/
def parseProps (content : String) : List (String × String) :=
  (splitNl content.data).filterMap parseLine

theorem splitNl_cons_nl (rest : List Char) :
    splitNl ('\n' :: rest) = [] :: splitNl rest := by
  simp [splitNl]

theorem splitNl_cons_ne (c : Char) (rest : List Char) (hc : ¬ c = '\n') :
    splitNl (c :: rest) =
      match splitNl rest with
      | [] => [[c]]
      | l :: ls => (c :: l) :: ls := by
  simp [splitNl, hc]

theorem splitNl_block (l rest : List Char) (h : '\n' ∉ l) :
    splitNl (l ++ '\n' :: rest) = l :: splitNl rest := by
  induction l with
  | nil => simp [splitNl]
  | cons c l' ih =>
    have hc : ¬ c = '\n' := fun hcc => h (hcc ▸ List.mem_cons_self c l')
    have h' : '\n' ∉ l' := fun hm => h (List.mem_cons_of_mem c hm)
    rw [List.cons_append, splitNl_cons_ne c _ hc, ih h']

theorem splitFirstEq_spec (k v : List Char) (h : '=' ∉ k) :
    splitFirstEq (k ++ '=' :: v) = some (k, v) := by
  induction k with
  | nil => simp [splitFirstEq]
  | cons c k' ih =>
    have hc : ¬ c = '=' := fun hcc => h (hcc ▸ List.mem_cons_self c k')
    have h' : '=' ∉ k' := fun hm => h (List.mem_cons_of_mem c hm)
    simp [splitFirstEq, hc, ih h']

theorem not_nl_kv (k v : List Char) (hk : '\n' ∉ k) (hv : '\n' ∉ v) :
    '\n' ∉ k ++ '=' :: v := by
  intro hm
  rcases List.mem_append.mp hm with h1 | h2
  · exact hk h1
  · rcases List.mem_cons.mp h2 with h3 | h4
    · exact absurd h3 (by decide)
    · exact hv h4

theorem parseLine_nil : parseLine [] = none := rfl

theorem parseLine_kv (k v : List Char) (h : '=' ∉ k) :
    parseLine (k ++ '=' :: v) = some (⟨k⟩, ⟨v⟩) := by
  unfold parseLine
  rw [splitFirstEq_spec k v h]
  rfl

theorem string_data_append (a b : String) : (a ++ b).data = a.data ++ b.data := rfl

theorem renderProperties_data (url ts rp : String) :
    (renderProperties url ts rp).data =
      '\n' :: (("url".data ++ '=' :: url.data) ++ '\n' ::
        (("username".data ++ '=' :: "su".data) ++ '\n' ::
          (("password".data ++ '=' :: "gw".data) ++ '\n' ::
            (("testsuite".data ++ '=' :: ts.data) ++ '\n' ::
              (("reports".data ++ '=' :: rp.data) ++ '\n' ::
                (("timeout".data ++ '=' :: "960000".data) ++ '\n' :: ([]))))))) := by
  simp only [renderProperties, string_data_append, List.append_assoc, List.cons_append,
    List.nil_append]

theorem parseProps_render (url ts rp : String)
    (hu : '\n' ∉ url.data) (ht : '\n' ∉ ts.data) (hr : '\n' ∉ rp.data) :
    parseProps (renderProperties url ts rp) =
      [("url", url), ("username", "su"), ("password", "gw"),
       ("testsuite", ts), ("reports", rp), ("timeout", "960000")] := by
  unfold parseProps
  rw [renderProperties_data, splitNl_cons_nl,
    splitNl_block _ _ (not_nl_kv _ _ (by decide) hu),
    splitNl_block _ _ (not_nl_kv _ _ (by decide) (by decide)),
    splitNl_block _ _ (not_nl_kv _ _ (by decide) (by decide)),
    splitNl_block _ _ (not_nl_kv _ _ (by decide) ht),
    splitNl_block _ _ (not_nl_kv _ _ (by decide) hr),
    splitNl_block _ _ (not_nl_kv _ _ (by decide) (by decide))]
  rw [List.filterMap_cons_none parseLine_nil,
    List.filterMap_cons_some (parseLine_kv "url".data url.data (by decide)),
    List.filterMap_cons_some (parseLine_kv "username".data "su".data (by decide)),
    List.filterMap_cons_some (parseLine_kv "password".data "gw".data (by decide)),
    List.filterMap_cons_some (parseLine_kv "testsuite".data ts.data (by decide)),
    List.filterMap_cons_some (parseLine_kv "reports".data rp.data (by decide)),
    List.filterMap_cons_some (parseLine_kv "timeout".data "960000".data (by decide)),
    show splitNl ([] : List Char) = [[]] from rfl,
    List.filterMap_cons_none parseLine_nil, List.filterMap_nil]

/-- A configuration whose Server element text contains a newline followed
by a key=value-shaped fragment. -/
def cfgC7 : Config :=
  { root := "C:/exec", workspace := "C:/ws", project := "P1", environment := "QA",
    product := "BC", server := "h\nk=v", testSuites := ["S1"], suiteDirectory := none }

/-- C7 counterexample: for the parsed configuration with server text
"h\nk=v", rendering the suite's properties document and parsing its
key=value lines back yields the key sequence
[url, k, username, password, testsuite, reports, timeout] — not the six
claimed keys — because the computed url value spans two lines. -/
theorem claim07_counterexample :
    prop_generate_content cfgC7 "S1" =
      .ok (renderProperties "http://h\nk=v:8580/bc"
            (generate_test_suite_path cfgC7 "S1") (generate_reports_path cfgC7 "S1")) ∧
    ¬ ((parseProps (renderProperties "http://h\nk=v:8580/bc"
            (generate_test_suite_path cfgC7 "S1") (generate_reports_path cfgC7 "S1"))).map
          Prod.fst =
        ["url", "username", "password", "testsuite", "reports", "timeout"]) :=
  ⟨rfl, by decide⟩

/-- C7 amended: for every parsed configuration and suite name whose
computed url, testsuite and reports values contain no newline character,
rendering the suite's properties document and parsing its key=value lines
back recovers exactly the keys url, username, password, testsuite,
reports, timeout, in that order, with url, testsuite and reports equal to
the computed values and username=su, password=gw, timeout=960000 as
constants. -/
theorem claim07_amended (cfg : Config) (test_suite url : String)
    (hurl : pc_generate_url cfg = .ok url)
    (hu : '\n' ∉ url.data)
    (ht : '\n' ∉ (generate_test_suite_path cfg test_suite).data)
    (hr : '\n' ∉ (generate_reports_path cfg test_suite).data) :
    prop_generate_content cfg test_suite =
      .ok (renderProperties url (generate_test_suite_path cfg test_suite)
            (generate_reports_path cfg test_suite)) ∧
    parseProps (renderProperties url (generate_test_suite_path cfg test_suite)
        (generate_reports_path cfg test_suite)) =
      [("url", url), ("username", "su"), ("password", "gw"),
       ("testsuite", generate_test_suite_path cfg test_suite),
       ("reports", generate_reports_path cfg test_suite),
       ("timeout", "960000")] := by
  refine ⟨?_, parseProps_render _ _ _ hu ht hr⟩
  simp [prop_generate_content, hurl]

/-- A well-formed configuration for the round-trip witness. -/
def cfgC7w : Config :=
  { root := "C:/exec", workspace := "C:/ws", project := "P1", environment := "QA",
    product := "BC", server := "host1", testSuites := ["S1"], suiteDirectory := none }

/-- Witness for `claim07_amended` at a concrete configuration and suite. -/
theorem claim07_witness :
    prop_generate_content cfgC7w "S1" =
      .ok (renderProperties "http://host1:8580/bc"
            (generate_test_suite_path cfgC7w "S1") (generate_reports_path cfgC7w "S1")) ∧
    parseProps (renderProperties "http://host1:8580/bc"
        (generate_test_suite_path cfgC7w "S1") (generate_reports_path cfgC7w "S1")) =
      [("url", "http://host1:8580/bc"), ("username", "su"), ("password", "gw"),
       ("testsuite", generate_test_suite_path cfgC7w "S1"),
       ("reports", generate_reports_path cfgC7w "S1"),
       ("timeout", "960000")] := by
  have h := claim07_amended cfgC7w "S1" "http://host1:8580/bc" rfl
    (by decide) (by decide) (by decide)
  exact ⟨h.1, h.2⟩

end ProjectConfig
